import Mathlib

/-!
Shallow embedding of the MotorOctane careers application form
(job-specific question selection, two-step application wizard,
checkbox answer serialization and submission error extraction),
translated from the React/TypeScript source.
-/

/-- JavaScript `String.prototype.toLowerCase`, character by character
(the titles and departments in play are ASCII). -/
def jsToLower (s : String) : String :=
  String.mk (s.toList.map Char.toLower)

/-- `x?.toLowerCase() || ''` on an optional string field. -/
def lowerOrEmpty : Option String → String
  | some s => jsToLower s
  | none => ""

/-- Boolean test that `needle` is a leading segment of `hay`. -/
def hasPrefixB : List Char → List Char → Bool
  | [], _ => true
  | _ :: _, [] => false
  | a :: as, b :: bs => a == b && hasPrefixB as bs

/-- Boolean test that `needle` occurs contiguously inside `hay`. -/
def hasSubB (needle : List Char) : List Char → Bool
  | [] => needle.isEmpty
  | c :: cs => hasPrefixB needle (c :: cs) || hasSubB needle cs

/-- JavaScript `hay.includes(needle)` for strings. -/
def strContains (hay needle : String) : Bool :=
  hasSubB needle.toList hay.toList

/-- The shape of a job opening as consumed by the question selector:
`title`, `department` and `type` are read through optional chaining in the
source, so they are optional here. -/
structure JobOpening where
  id : String
  title : Option String
  department : Option String
  type : Option String
deriving DecidableEq

/-- The `type` tag of a `QuestionConfig` in the source. -/
inductive QType where
  | text
  | checkbox
  | radio
  | rating
  | textarea
deriving DecidableEq

/-- `scale.labels` of a rating question. -/
structure ScaleLabels where
  min : String
  max : String
deriving DecidableEq

/-- `scale` of a rating question. -/
structure RatingScale where
  min : Nat
  max : Nat
  labels : Option ScaleLabels := none
deriving DecidableEq

/-- A job-specific question specification. -/
structure QuestionConfig where
  question : String
  type : QType
  options : Option (List String) := none
  scale : Option RatingScale := none
deriving DecidableEq

/-- The 10 questions of the videographer / editor branch. -/
def videographerQuestions : List QuestionConfig :=
  [ { question := "Proficiency at handling DSLR Gimbal:", type := QType.radio,
      options := some ["Professional", "Limited Experience", "No Experience"] },
    { question := "Rate yourself on your skill to setup and operate a DSLR Gimbal",
      type := QType.rating, scale := some { min := 1, max := 10 } },
    { question := "What are the various stages in shooting a product before it goes for grading? Explain briefly.",
      type := QType.textarea },
    { question := "Please share your work links for reference", type := QType.textarea },
    { question := "Can you edit videos?", type := QType.radio,
      options := some ["Yes", "No"] },
    { question := "Which software's can you edit on? Mention below", type := QType.radio,
      options := some ["FCP X", "Premiere Pro", "FCP 7", "Premiere Rush"] },
    { question := "How well can you colour grade on a scale of 1-10?", type := QType.rating,
      scale := some { min := 1, max := 10, labels := some { min := "Worst", max := "Best" } } },
    { question := "How well can you balance music on a scale of 1-10?", type := QType.rating,
      scale := some { min := 1, max := 10 } },
    { question := "How well can you select music for a video on a scale of 1-10?",
      type := QType.rating, scale := some { min := 1, max := 10 } },
    { question := "Can you animate as well?", type := QType.radio,
      options := some ["Yes", "No"] } ]

/-- The 3 questions of the content-writer branch. -/
def contentWriterQuestions : List QuestionConfig :=
  [ { question := "What do you enjoy the most about content writing?", type := QType.text },
    { question := "What all kind of content have you written before?", type := QType.textarea },
    { question := "How do you integrate SEO into your content?", type := QType.textarea } ]

/-- The 5 questions of the social-media / content-creation branch. -/
def socialMediaQuestions : List QuestionConfig :=
  [ { question := "Will you be open to work as an intern if you don't have any experience?",
      type := QType.radio, options := some ["Yes", "No"] },
    { question := "Have you done any courses on social media with certification?",
      type := QType.radio, options := some ["Yes", "No", "Maybe"] },
    { question := "Can you edit photos and videos on a phone?",
      type := QType.checkbox, options := some ["Yes", "No"] },
    { question := "How well do you understand Facebook & Instagram when it comes to business tools?",
      type := QType.rating, scale := some { min := 1, max := 10 } },
    { question := "How many years of relevant experience do you have in Social Media?",
      type := QType.rating, scale := some { min := 1, max := 10 } } ]

/-- The 4 questions of the media-sales branch. -/
def mediaSalesQuestions : List QuestionConfig :=
  [ { question := "Which companies have you worked before?", type := QType.textarea },
    { question := "Have you built concepts for automotive products?",
      type := QType.radio, options := some ["Yes", "No"] },
    { question := "Which all car or related brands are your clientele?", type := QType.textarea },
    { question := "What is your understanding about digital and videos on a scale of 1-5?",
      type := QType.rating, scale := some { min := 1, max := 5 } } ]

/-- The 3 questions of the internship branch. -/
def internshipQuestions : List QuestionConfig :=
  [ { question := "Are you currently studying?", type := QType.text },
    { question := "Can you dedicate 6 months for full time work?", type := QType.text },
    { question := "We can offer Rs 8000 stipend per month - if ok then we proceed with your application",
      type := QType.text } ]

/-- The two generic questions shared by every department set and used as the
final fallback. -/
def commonQuestions : List QuestionConfig :=
  [ { question := "What interests you most about working in the automotive industry?",
      type := QType.textarea },
    { question := "How do you stay updated with the latest automotive trends and technologies?",
      type := QType.textarea } ]

/-- The `production` department question set. -/
def productionQuestions : List QuestionConfig :=
  commonQuestions ++
  [ { question := "What video production tools and software are you proficient in?",
      type := QType.textarea },
    { question := "Describe your experience with automotive video content creation.",
      type := QType.textarea },
    { question := "How would you handle filming in challenging automotive environments?",
      type := QType.textarea } ]

/-- The `consultancy` department question set. -/
def consultancyQuestions : List QuestionConfig :=
  commonQuestions ++
  [ { question := "What's your experience with automotive consulting or advisory services?",
      type := QType.textarea },
    { question := "How do you approach client relationship management?", type := QType.textarea },
    { question := "Share an example of a complex automotive problem you've solved.",
      type := QType.textarea } ]

/-- The `backend` department question set. -/
def backendQuestions : List QuestionConfig :=
  commonQuestions ++
  [ { question := "What programming languages and frameworks do you specialize in?",
      type := QType.textarea },
    { question := "How would you design a system to handle high-traffic automotive content?",
      type := QType.textarea },
    { question := "Describe your experience with database optimization for media-heavy applications.",
      type := QType.textarea } ]

/-- The `content` department question set. -/
def contentDeptQuestions : List QuestionConfig :=
  commonQuestions ++
  [ { question := "What's your writing style when it comes to automotive content?",
      type := QType.textarea },
    { question := "How do you research and fact-check automotive information?",
      type := QType.textarea },
    { question := "Share examples of automotive content you've created that performed well.",
      type := QType.textarea } ]

/-- The `marketing` department question set. -/
def marketingQuestions : List QuestionConfig :=
  commonQuestions ++
  [ { question := "How would you market MotorOctane to reach more car enthusiasts?",
      type := QType.textarea },
    { question := "What social media strategies work best for automotive content?",
      type := QType.textarea },
    { question := "Describe a successful automotive marketing campaign you admire.",
      type := QType.textarea } ]

/-- The department-keyed record of question sets (`departmentQuestions[department]`
yields `none` for an unrecognized key). -/
def departmentQuestions (d : String) : Option (List QuestionConfig) :=
  if d = "production" then some productionQuestions
  else if d = "consultancy" then some consultancyQuestions
  else if d = "backend" then some backendQuestions
  else if d = "content" then some contentDeptQuestions
  else if d = "marketing" then some marketingQuestions
  else none

/-- The question selector: a priority-ordered pattern match on the lowercased
title, job type and department, translated branch for branch from
`getJobSpecificQuestions` in the source. -/
def getJobSpecificQuestions (job : JobOpening) : List QuestionConfig :=
  let department := lowerOrEmpty job.department
  let jobType := lowerOrEmpty job.type
  let title := lowerOrEmpty job.title
  if strContains title "videographer" || strContains title "video editor" ||
     strContains title "video" || strContains title "editor" then
    videographerQuestions
  else if strContains title "content writer" || strContains title "writer" ||
          (strContains title "content" && strContains title "writer") then
    contentWriterQuestions
  else if strContains title "social media" || strContains title "content creation" ||
          strContains title "social" || strContains title "content" then
    socialMediaQuestions
  else if strContains title "media sales" || strContains (jsToLower title) "sales" then
    mediaSalesQuestions
  else if strContains jobType "internship" || strContains title "internship" then
    internshipQuestions
  else
    (departmentQuestions department).getD commonQuestions

/-- `isStepRequired` in the component: step 2 is rendered when the generated
question list is non-empty. -/
def isStepRequired (job : JobOpening) : Bool :=
  decide (0 < (getJobSpecificQuestions job).length)

/-- `isInternship` in the component. -/
def isInternship (job : JobOpening) : Bool :=
  strContains (lowerOrEmpty job.type) "internship" ||
  strContains (lowerOrEmpty job.title) "internship"

/-- The step-1 form data validated by `basicInfoSchema` (the optional `cv`
file is carried by name). -/
structure BasicInfoData where
  firstName : String
  lastName : String
  email : String
  phone : String
  cv : Option String := none
  canTravelToNaviMumbai : String
  currentSalary : Option String := none
  expectedSalary : Option String := none
  whyMotorOctane : String
deriving DecidableEq

/-- The component state held in React: the selected CV file, the current
step, the saved step-1 data, and the two form value stores. -/
structure FormState where
  cvFile : Option String
  currentStep : Nat
  basicInfo : Option BasicInfoData
  basicFormValues : List (String × String)
  jobSpecificValues : List (String × String)
deriving DecidableEq

/-- JavaScript truthiness on an optional string: `undefined` and the empty
string are falsy. -/
def truthyOpt : Option String → Option String
  | some s => if s = "" then none else some s
  | none => none

/-- The multipart body assembled by the submission mutation: `currentSalary`
and `expectedSalary` are appended only when truthy, and the job-specific
answers are attached only when step-2 data is available. -/
structure SubmissionPayload where
  jobId : String
  firstName : String
  lastName : String
  email : String
  phone : String
  cv : Option String
  canTravelToNaviMumbai : String
  currentSalary : Option String
  expectedSalary : Option String
  whyMotorOctane : String
  jobSpecificAnswers : Option (List (String × String))
deriving DecidableEq

/-- `mutationFn`: build the request body from the step-1 data, the optional
step-2 answers and the selected CV file. -/
def buildPayload (job : JobOpening) (basicData : BasicInfoData)
    (jobSpecificData : Option (List (String × String))) (cvFile : Option String) :
    SubmissionPayload :=
  { jobId := job.id
    firstName := basicData.firstName
    lastName := basicData.lastName
    email := basicData.email
    phone := basicData.phone
    cv := cvFile
    canTravelToNaviMumbai := basicData.canTravelToNaviMumbai
    currentSalary := truthyOpt basicData.currentSalary
    expectedSalary := truthyOpt basicData.expectedSalary
    whyMotorOctane := basicData.whyMotorOctane
    jobSpecificAnswers := jobSpecificData }

/-- What a submit handler does besides updating component state: nothing, or
fire the submission mutation with a payload. -/
inductive SubmitEffect where
  | none
  | submitted (payload : SubmissionPayload)
deriving DecidableEq

/-- `onBasicInfoSubmit`: save the step-1 data, then either submit directly
(question list empty) or move to step 2. -/
def onBasicInfoSubmit (job : JobOpening) (data : BasicInfoData) (s : FormState) :
    FormState × SubmitEffect :=
  let s1 := { s with basicInfo := some data }
  if !isStepRequired job then
    (s1, SubmitEffect.submitted (buildPayload job data none s.cvFile))
  else
    ({ s1 with currentStep := 2 }, SubmitEffect.none)

/-- `onJobSpecificSubmit`: with step-1 data missing, navigate back to step 1;
otherwise submit both steps together. -/
def onJobSpecificSubmit (job : JobOpening) (answers : List (String × String))
    (s : FormState) : FormState × SubmitEffect :=
  match s.basicInfo with
  | Option.none => ({ s with currentStep := 1 }, SubmitEffect.none)
  | some b => (s, SubmitEffect.submitted (buildPayload job b (some answers) s.cvFile))

/-- `z.string()` with no refinement: accepts every string. -/
def zodStringAccepts (_ : String) : Bool := true

/-- `z.string().optional()`: accepts `undefined` and every string. -/
def zodOptionalStringAccepts : Option String → Bool
  | Option.none => true
  | some s => zodStringAccepts s

/-- `jobSpecificSchema`, a `z.record` of optional strings over the step-2
form values: each answer value is checked by `z.string().optional()`. -/
def jobSpecificSchemaAccepts (answers : List (String × String)) : Bool :=
  answers.all fun a => zodOptionalStringAccepts (some a.2)

/-- The step-2 form submit as wired through `handleSubmit` with the zod
resolver: the handler runs only when the schema accepts the values. -/
def step2FormSubmit (job : JobOpening) (answers : List (String × String))
    (s : FormState) : FormState × SubmitEffect :=
  if jobSpecificSchemaAccepts answers then onJobSpecificSubmit job answers s
  else (s, SubmitEffect.none)

/-- Step-2 validation as the specification words it, for comparison with
`jobSpecificSchemaAccepts`: a non-empty answer for every generated question. -/
def specStep2RequiresAnswers (questions : List QuestionConfig)
    (answers : List (String × String)) : Bool :=
  questions.all fun q =>
    match List.lookup q.question answers with
    | some v => v != ""
    | Option.none => false

/-- `goBack`: the back button handler sets the current step to 1 and touches
nothing else. -/
def goBack (s : FormState) : FormState :=
  { s with currentStep := 1 }

/-- JavaScript whitespace test for the characters in play. -/
def isWhitespaceChar (c : Char) : Bool :=
  c == ' ' || c == '\t' || c == '\n' || c == '\r'

/-- `String.prototype.trim`. -/
def jsTrim (s : String) : String :=
  String.mk (((s.toList.dropWhile isWhitespaceChar).reverse.dropWhile isWhitespaceChar).reverse)

/-- `split(', ')` on the character list: split at each occurrence of a comma
followed by a space, left to right. -/
def splitCommaSpace : List Char → List Char → List (List Char)
  | acc, [] => [acc.reverse]
  | acc, ',' :: ' ' :: rest => acc.reverse :: splitCommaSpace [] rest
  | acc, c :: rest => splitCommaSpace (c :: acc) rest

/-- `fieldValue ? fieldValue.split(', ').filter(v => v.trim() !== '') : []`:
the currently selected checkbox options of a serialized field value. -/
def jsSplitSelections (s : String) : List String :=
  if s = "" then []
  else ((splitCommaSpace [] s.toList).map String.mk).filter fun v => jsTrim v != ""

/-- `join(', ')` on the selected options. -/
def joinCommaSpace : List String → String
  | [] => ""
  | [x] => x
  | x :: xs => x ++ ", " ++ joinCommaSpace xs

/-- The checkbox option click handler: toggle `opt` in the comma-joined
field value, keeping the order in which options were selected. -/
def toggleCheckboxOption (fieldValue : String) (opt : String) : String :=
  let currentValues := jsSplitSelections fieldValue
  let newValues :=
    if currentValues.contains opt then currentValues.filter fun v => v != opt
    else currentValues ++ [opt]
  if newValues.length > 0 then joinCommaSpace newValues else ""

/-- The JSON body of a failed submission response, as far as the client
reads it: the optional `error` and `details` fields. -/
structure ErrJson where
  error : Option String := none
  details : Option String := none
deriving DecidableEq

/-- JavaScript `v || fallback` on an optional string field: `undefined` and
the empty string fall through. -/
def jsOrElse (v : Option String) (fallback : String) : String :=
  match v with
  | some s => if s = "" then fallback else s
  | Option.none => fallback

/-- The detail string the client computes from a non-2xx response: the raw
text when the body is not JSON, otherwise `json.details || json.error || text`. -/
def extractErrorDetails (parsed : Option ErrJson) (text : String) : String :=
  match parsed with
  | Option.none => text
  | some j => jsOrElse j.details (jsOrElse j.error text)

/-- The message of the error thrown on a non-2xx submission response. -/
def submitErrorMessage (status : Nat) (parsed : Option ErrJson) (text : String) : String :=
  "Failed to submit application (HTTP " ++ toString status ++ "). " ++
    extractErrorDetails parsed text


/-! ## Concrete inputs used by scenario theorems and witnesses -/

/-- A job of type Internship titled Marketing Internship. -/
def marketingInternJob : JobOpening :=
  { id := "job-mi", title := some "Marketing Internship",
    department := some "marketing", type := some "Internship" }

/-- A job titled Social Media Executive in the content department. -/
def socialMediaExecJob : JobOpening :=
  { id := "job-sme", title := some "Social Media Executive",
    department := some "content", type := some "Full-time" }

/-- A job titled Content Editor. -/
def contentEditorJob : JobOpening :=
  { id := "job-ce", title := some "Content Editor",
    department := some "content", type := some "Full-time" }

/-- A job matching no role keyword, not an internship, with an unrecognized
department. -/
def operationsJob : JobOpening :=
  { id := "job-ops", title := some "Operations Manager",
    department := some "finance", type := some "Full-time" }

/-- A job whose title contains the keyword video. -/
def videoProducerJob : JobOpening :=
  { id := "job-vp", title := some "Video Producer",
    department := some "production", type := some "Full-time" }

/-- Valid step-1 data. -/
def sampleBasic : BasicInfoData :=
  { firstName := "Asha", lastName := "K", email := "asha@example.com",
    phone := "+91 98765 43210", canTravelToNaviMumbai := "yes",
    whyMotorOctane := "I love cars and automotive content." }

/-- The component state when the dialog opens. -/
def initState : FormState :=
  { cvFile := none, currentStep := 1, basicInfo := none,
    basicFormValues := [], jobSpecificValues := [] }

/-- A state sitting on step 2 with step-1 data saved. -/
def internStep2State : FormState :=
  { cvFile := none, currentStep := 2, basicInfo := some sampleBasic,
    basicFormValues := [], jobSpecificValues := [] }

/-- A populated state sitting on step 2, with a CV selected and values
entered in both forms. -/
def richStep2State : FormState :=
  { cvFile := some "resume.pdf", currentStep := 2, basicInfo := some sampleBasic,
    basicFormValues := [("firstName", "Asha"), ("whyMotorOctane", "I love cars.")],
    jobSpecificValues := [("Are you currently studying?", "Yes")] }

/-- Every internship question answered by the empty string. -/
def emptyInternAnswers : List (String × String) :=
  internshipQuestions.map fun q => (q.question, "")

/-! ## Helper lemmas -/

theorem hasPrefixB_refl (l : List Char) : hasPrefixB l l = true := by
  induction l with
  | nil => rfl
  | cons c cs ih => simp [hasPrefixB, ih]

theorem hasSubB_append (needle pre : List Char) :
    hasSubB needle (pre ++ needle) = true := by
  induction pre with
  | nil =>
    cases needle with
    | nil => rfl
    | cons c cs => simp [hasSubB, hasPrefixB_refl]
  | cons c cs ih => simp [hasSubB, ih]

theorem toList_append (a b : String) : (a ++ b).toList = a.toList ++ b.toList := by
  cases a
  cases b
  rfl

/-- A string contains each of its suffixes. -/
theorem strContains_append_right (a d : String) : strContains (a ++ d) d = true := by
  unfold strContains
  rw [toList_append]
  exact hasSubB_append d.toList a.toList

/-- Every department lookup result, fallback included, has at least the two
generic questions. -/
theorem two_le_dept_len (d : String) :
    2 ≤ ((departmentQuestions d).getD commonQuestions).length := by
  unfold departmentQuestions
  repeat' split
  all_goals decide

/-- The selector never returns fewer than two questions. -/
theorem two_le_questions_len (job : JobOpening) :
    2 ≤ (getJobSpecificQuestions job).length := by
  simp only [getJobSpecificQuestions]
  repeat' split
  · decide
  · decide
  · decide
  · decide
  · decide
  · exact two_le_dept_len _

/-- Step 2 is required for every job. -/
theorem isStepRequired_true (job : JobOpening) : isStepRequired job = true := by
  have h := two_le_questions_len job
  unfold isStepRequired
  simp only [decide_eq_true_eq]
  omega

/-- Submitting step 1 always saves the data and moves to step 2. -/
theorem onBasicInfoSubmit_eq (job : JobOpening) (data : BasicInfoData) (s : FormState) :
    onBasicInfoSubmit job data s =
      ({ s with basicInfo := some data, currentStep := 2 }, SubmitEffect.none) := by
  unfold onBasicInfoSubmit
  rw [isStepRequired_true]
  simp

/-- The step-2 schema accepts every record of string answers. -/
theorem jobSpecificSchemaAccepts_true (answers : List (String × String)) :
    jobSpecificSchemaAccepts answers = true := by
  unfold jobSpecificSchemaAccepts
  simp [zodOptionalStringAccepts, zodStringAccepts]

/-! ## Claim theorems -/

/-- Claim C1, counterexample: for the internship job (type Internship, title
Marketing Internship), submitting step 1 does not transition directly to
Submitted; the workflow moves to step 2 and no submission is fired, so the
claim that an internship skips step 2 is false on the code. -/
theorem claim1_counterexample :
    isInternship marketingInternJob = true ∧
    (onBasicInfoSubmit marketingInternJob sampleBasic initState).1.currentStep = 2 ∧
    (onBasicInfoSubmit marketingInternJob sampleBasic initState).2 = SubmitEffect.none := by
  refine ⟨rfl, rfl, rfl⟩

/-- Claim C1 as amended: a job with an empty generated question list would
submit directly from step 1, but an internship has a non-empty (3-question)
list, so submitting step 1 of an internship application saves the data and
transitions to Step 2; step 2 is rendered, not skipped. -/
theorem claim1_internship_goes_to_step2 (job : JobOpening) (data : BasicInfoData)
    (s : FormState) (_h : isInternship job = true) :
    0 < (getJobSpecificQuestions job).length ∧
    onBasicInfoSubmit job data s =
      ({ s with basicInfo := some data, currentStep := 2 }, SubmitEffect.none) := by
  have hl := two_le_questions_len job
  exact ⟨by omega, onBasicInfoSubmit_eq job data s⟩

/-- Witness for the amended claim C1 at the marketing internship job. -/
theorem claim1_internship_goes_to_step2_witness :
    isInternship marketingInternJob = true ∧
    (0 < (getJobSpecificQuestions marketingInternJob).length ∧
      onBasicInfoSubmit marketingInternJob sampleBasic initState =
        ({ initState with basicInfo := some sampleBasic, currentStep := 2 },
          SubmitEffect.none)) :=
  ⟨rfl, claim1_internship_goes_to_step2 marketingInternJob sampleBasic initState rfl⟩

/-- Claim C2, counterexample: with every internship question answered by the
empty string, the step-2 schema still accepts the record (it imposes no
non-emptiness, unlike the validation the specification describes), and the
step-2 submit proceeds to fire the submission instead of keeping the
workflow in Step 2. -/
theorem claim2_counterexample :
    jobSpecificSchemaAccepts emptyInternAnswers = true ∧
    specStep2RequiresAnswers internshipQuestions emptyInternAnswers = false ∧
    step2FormSubmit marketingInternJob emptyInternAnswers internStep2State =
      (internStep2State,
        SubmitEffect.submitted
          (buildPayload marketingInternJob sampleBasic (some emptyInternAnswers) none)) := by
  refine ⟨rfl, rfl, rfl⟩

/-- Claim C2 as amended: the step-2 schema treats every answer as an optional
string and accepts any record of answers, empty ones included; whenever the
step-1 data is saved, submitting step 2 fires the submission with exactly the
entered answers, never rejecting for emptiness. -/
theorem claim2_schema_accepts_empty (job : JobOpening) (answers : List (String × String))
    (s : FormState) (b : BasicInfoData) (h : s.basicInfo = some b) :
    jobSpecificSchemaAccepts answers = true ∧
    step2FormSubmit job answers s =
      (s, SubmitEffect.submitted (buildPayload job b (some answers) s.cvFile)) := by
  refine ⟨jobSpecificSchemaAccepts_true answers, ?_⟩
  unfold step2FormSubmit onJobSpecificSubmit
  rw [jobSpecificSchemaAccepts_true, h]
  simp

/-- Witness for the amended claim C2 at a concrete answered state. -/
theorem claim2_schema_accepts_empty_witness :
    internStep2State.basicInfo = some sampleBasic ∧
    (jobSpecificSchemaAccepts [("Are you currently studying?", "yes")] = true ∧
      step2FormSubmit marketingInternJob [("Are you currently studying?", "yes")]
          internStep2State =
        (internStep2State,
          SubmitEffect.submitted
            (buildPayload marketingInternJob sampleBasic
              (some [("Are you currently studying?", "yes")])
              internStep2State.cvFile))) :=
  ⟨rfl, claim2_schema_accepts_empty marketingInternJob
    [("Are you currently studying?", "yes")] internStep2State sampleBasic rfl⟩

/-- Claim C3: the job titled Social Media Executive with department content
receives exactly the 5 social-media questions, in their listed order, and
not the content department set: the title-keyword branch wins over the
department lookup. -/
theorem claim3_social_media_priority :
    getJobSpecificQuestions socialMediaExecJob = socialMediaQuestions ∧
    socialMediaQuestions.length = 5 ∧
    socialMediaExecJob.department = some "content" ∧
    getJobSpecificQuestions socialMediaExecJob ≠ contentDeptQuestions := by
  refine ⟨rfl, rfl, rfl, ?_⟩
  decide

/-- Claim C4: the job of type Internship titled Marketing Internship receives
exactly the 3 internship questions, in their listed order, even though the
title contains the department keyword Marketing. -/
theorem claim4_internship_questions :
    getJobSpecificQuestions marketingInternJob = internshipQuestions ∧
    internshipQuestions.length = 3 ∧
    internshipQuestions.map QuestionConfig.question =
      ["Are you currently studying?",
       "Can you dedicate 6 months for full time work?",
       "We can offer Rs 8000 stipend per month - if ok then we proceed with your application"] := by
  refine ⟨rfl, rfl, rfl⟩

/-- Claim C5: selecting the Yes checkbox option and then the No option of a
multi-select question serializes the answer as the single comma-joined
string Yes, No in selection order, and that string is carried unchanged into
the submission payload. -/
theorem claim5_checkbox_serialization :
    toggleCheckboxOption "" "Yes" = "Yes" ∧
    toggleCheckboxOption (toggleCheckboxOption "" "Yes") "No" = "Yes, No" ∧
    (buildPayload socialMediaExecJob sampleBasic
        (some [("Can you edit photos and videos on a phone?", "Yes, No")])
        none).jobSpecificAnswers =
      some [("Can you edit photos and videos on a phone?", "Yes, No")] := by
  refine ⟨rfl, rfl, rfl⟩

/-- Claim C6: a job whose lowercased title matches none of the role-keyword
branches and that is not an internship, with a department outside the
recognized keys, receives exactly the two generic questions. -/
theorem claim6_generic_fallback (job : JobOpening)
    (h1 : (strContains (lowerOrEmpty job.title) "videographer" ||
           strContains (lowerOrEmpty job.title) "video editor" ||
           strContains (lowerOrEmpty job.title) "video" ||
           strContains (lowerOrEmpty job.title) "editor") = false)
    (h2 : (strContains (lowerOrEmpty job.title) "content writer" ||
           strContains (lowerOrEmpty job.title) "writer" ||
           (strContains (lowerOrEmpty job.title) "content" &&
            strContains (lowerOrEmpty job.title) "writer")) = false)
    (h3 : (strContains (lowerOrEmpty job.title) "social media" ||
           strContains (lowerOrEmpty job.title) "content creation" ||
           strContains (lowerOrEmpty job.title) "social" ||
           strContains (lowerOrEmpty job.title) "content") = false)
    (h4 : (strContains (lowerOrEmpty job.title) "media sales" ||
           strContains (jsToLower (lowerOrEmpty job.title)) "sales") = false)
    (h5 : (strContains (lowerOrEmpty job.type) "internship" ||
           strContains (lowerOrEmpty job.title) "internship") = false)
    (hd : lowerOrEmpty job.department ∉
      (["production", "consultancy", "backend", "content", "marketing"] : List String)) :
    getJobSpecificQuestions job = commonQuestions ∧ commonQuestions.length = 2 := by
  refine ⟨?_, rfl⟩
  simp only [getJobSpecificQuestions]
  rw [h1, h2, h3, h4, h5]
  simp only [List.mem_cons, List.mem_singleton, not_or] at hd
  simp [departmentQuestions, hd.1, hd.2.1, hd.2.2.1, hd.2.2.2.1, hd.2.2.2.2.1]

/-- Witness for claim C6 at a concrete job with no keyword match and an
unrecognized department. -/
theorem claim6_generic_fallback_witness :
    getJobSpecificQuestions operationsJob = commonQuestions ∧
    commonQuestions.length = 2 :=
  claim6_generic_fallback operationsJob rfl rfl rfl rfl rfl (by decide)

/-- Claim C7: from Step 2, the Back action sets the current step to 1 and
changes nothing else: the saved step-1 data, both forms' entered values and
the selected CV file are unchanged. -/
theorem claim7_goBack_frame (s : FormState) (_h : s.currentStep = 2) :
    (goBack s).currentStep = 1 ∧
    (goBack s).basicInfo = s.basicInfo ∧
    (goBack s).basicFormValues = s.basicFormValues ∧
    (goBack s).jobSpecificValues = s.jobSpecificValues ∧
    (goBack s).cvFile = s.cvFile ∧
    goBack s = { s with currentStep := 1 } :=
  ⟨rfl, rfl, rfl, rfl, rfl, rfl⟩

/-- Witness for claim C7 at a populated step-2 state. -/
theorem claim7_goBack_frame_witness :
    richStep2State.currentStep = 2 ∧
    ((goBack richStep2State).currentStep = 1 ∧
      (goBack richStep2State).basicInfo = richStep2State.basicInfo ∧
      (goBack richStep2State).basicFormValues = richStep2State.basicFormValues ∧
      (goBack richStep2State).jobSpecificValues = richStep2State.jobSpecificValues ∧
      (goBack richStep2State).cvFile = richStep2State.cvFile ∧
      goBack richStep2State = { richStep2State with currentStep := 1 }) :=
  ⟨rfl, claim7_goBack_frame richStep2State rfl⟩

/-- Claim C8: the error message surfaced for a non-2xx submission response
ends with, and therefore contains, the JSON body's details field when that
is non-empty, else its error field when non-empty, else the raw response
text; when the body is not JSON it ends with the raw text. -/
theorem claim8_error_details (status : Nat) (j : ErrJson) (text : String) :
    submitErrorMessage status (some j) text =
      "Failed to submit application (HTTP " ++ toString status ++ "). " ++
        jsOrElse j.details (jsOrElse j.error text) ∧
    strContains (submitErrorMessage status (some j) text)
      (jsOrElse j.details (jsOrElse j.error text)) = true ∧
    submitErrorMessage status none text =
      "Failed to submit application (HTTP " ++ toString status ++ "). " ++ text ∧
    strContains (submitErrorMessage status none text) text = true := by
  refine ⟨rfl, ?_, rfl, ?_⟩
  · exact strContains_append_right _ _
  · exact strContains_append_right _ _

/-- Claim C9: the selector returns at least two questions for every job, so
isStepRequired holds for every job and the direct step-1-only submission
path is unreachable: submitting step 1 always moves to step 2 with no
submission effect. -/
theorem claim9_step1_direct_path_unreachable :
    (∀ job : JobOpening, 2 ≤ (getJobSpecificQuestions job).length) ∧
    (∀ job : JobOpening, isStepRequired job = true) ∧
    (∀ (job : JobOpening) (data : BasicInfoData) (s : FormState),
      onBasicInfoSubmit job data s =
        ({ s with basicInfo := some data, currentStep := 2 }, SubmitEffect.none)) :=
  ⟨two_le_questions_len, isStepRequired_true, onBasicInfoSubmit_eq⟩

/-- Claim C10: any job whose lowercased title contains video or editor takes
the first branch and receives the 10-question videographer/editor set; in
particular Content Editor, whose title contains neither videographer nor
video editor, still receives that set rather than a content-related one. -/
theorem claim10_video_editor_keyword :
    (∀ job : JobOpening,
      (strContains (lowerOrEmpty job.title) "video" = true ∨
       strContains (lowerOrEmpty job.title) "editor" = true) →
      getJobSpecificQuestions job = videographerQuestions) ∧
    getJobSpecificQuestions contentEditorJob = videographerQuestions ∧
    strContains (lowerOrEmpty contentEditorJob.title) "videographer" = false ∧
    strContains (lowerOrEmpty contentEditorJob.title) "video editor" = false ∧
    videographerQuestions.length = 10 := by
  refine ⟨?_, rfl, rfl, rfl, rfl⟩
  intro job h
  simp only [getJobSpecificQuestions]
  rcases h with h | h <;> simp [h]

/-- Witness for claim C10: the keyword branch applied to a concrete job
whose title contains video. -/
theorem claim10_video_editor_keyword_witness :
    getJobSpecificQuestions videoProducerJob = videographerQuestions :=
  claim10_video_editor_keyword.1 videoProducerJob (Or.inl rfl)
